import Mathlib

/-!
Verification of the task-coordinator and organizational-backend logic of the
claude-fastapi repository, as a shallow embedding in Lean 4.

Part A embeds `agents/task_coordinator.py` (task registry, priority queue,
agent registry, assignment).  Part B embeds `backend/core/security.py`
(token issuance and verification).  Part C embeds the backend CRUD layer
(`backend/crud/user.py`, `backend/crud/department.py`,
`backend/crud/employee.py`) and the router-level behavior of
`backend/api/v1/*.py` (ValueError to HTTP 400 mapping, pagination).

Modelling conventions:
  - Python dicts that preserve insertion order are modelled as association
    lists; assignment `d[k] = v` replaces in place when the key exists and
    appends otherwise.
  - Random uuid4 task ids and SQL autoincrement ids are modelled by a fresh
    counter carried in the state; only freshness matters to the source logic.
  - Wall-clock timestamps (`created_at`, `started_at`, ...) and the free-form
    `metadata` map of `TaskInfo` carry no logic in the source and are omitted.
  - Python truthiness tests on `Optional[int]` values (`if department.parent_id:`)
    are modelled by `truthyOptNat`, which is false for `none` and for `some 0`.
  - The stable Python `list.sort(key=..., reverse=True)` is modelled as a
    stable insertion sort with the reversed key order (same function on lists).
-/

namespace Agents

/-- TaskType enumeration from agents/task_coordinator.py. -/
inductive TaskType where
  | documentation
  | code_analysis
  | api_development
  | testing
  | refactoring
  | deployment
  | security_audit
  | performance_optimization
deriving DecidableEq, Repr

/-- TaskPriority enumeration (LOW=1, MEDIUM=2, HIGH=3, CRITICAL=4). -/
inductive TaskPriority where
  | low
  | medium
  | high
  | critical
deriving DecidableEq, Repr

/-- Numeric value of a priority, as in the Python enum. -/
def TaskPriority.value : TaskPriority → Nat
  | .low => 1
  | .medium => 2
  | .high => 3
  | .critical => 4

/-- TaskStatus enumeration. -/
inductive TaskStatus where
  | pending
  | assigned
  | in_progress
  | completed
  | failed
  | blocked
deriving DecidableEq, Repr

/-- TaskInfo dataclass (timestamps and metadata omitted, see header). -/
structure TaskInfo where
  id : Nat
  title : String
  description : String
  task_type : TaskType
  priority : TaskPriority
  status : TaskStatus
  assigned_agent : Option String
  dependencies : List Nat
  estimated_duration : Nat
  result : Option String
  error : Option String
deriving DecidableEq, Repr

/-- AgentInfo dataclass; performance_score is a float in the source, only
ever compared, never mutated, and defaulted to 1.0 - modelled as a rational. -/
structure AgentInfo where
  name : String
  capabilities : List TaskType
  max_concurrent_tasks : Nat
  current_tasks : List Nat
  is_available : Bool
  performance_score : Rat
deriving DecidableEq, Repr

/-- Ordered-dict assignment: replace in place when the key exists, else append. -/
def assocSet {κ α : Type} [BEq κ] (l : List (κ × α)) (k : κ) (v : α) : List (κ × α) :=
  if l.any (fun p => p.1 == k) then
    l.map (fun p => if p.1 == k then (k, v) else p)
  else
    l ++ [(k, v)]

/-- Ordered-dict lookup. -/
def assocGet {κ α : Type} [BEq κ] (l : List (κ × α)) (k : κ) : Option α :=
  (l.find? (fun p => p.1 == k)).map (fun p => p.2)

/-- State of TaskCoordinatorAgent: task registry, agent registry, pending
queue of task ids, completed list, and the fresh-id counter (uuid4 model). -/
structure Coordinator where
  tasks : List (Nat × TaskInfo)
  agents : List (String × AgentInfo)
  task_queue : List Nat
  completed_tasks : List Nat
  next_id : Nat
deriving DecidableEq, Repr

/-- Lookup of self.tasks.get(task_id). -/
def Coordinator.lookupTask (c : Coordinator) (tid : Nat) : Option TaskInfo :=
  assocGet c.tasks tid

/-- Lookup of self.agents.get(name). -/
def Coordinator.lookupAgent (c : Coordinator) (n : String) : Option AgentInfo :=
  assocGet c.agents n

/-- The register_agent method: installs an AgentInfo with the default
current_tasks/is_available/performance_score fields. -/
def register_agent (c : Coordinator) (name : String) (capabilities : List TaskType)
    (max_concurrent_tasks : Nat := 3) : Coordinator :=
  let info : AgentInfo :=
    { name := name
      capabilities := capabilities
      max_concurrent_tasks := max_concurrent_tasks
      current_tasks := []
      is_available := true
      performance_score := 1 }
  { c with agents := assocSet c.agents name info }

/-- The coordinator built by __init__: empty registries, then the four
default agents registered by _register_default_agents. -/
def initCoordinator : Coordinator :=
  let c : Coordinator :=
    { tasks := [], agents := [], task_queue := [], completed_tasks := [], next_id := 0 }
  let c := register_agent c "documentation_agent"
    [TaskType.documentation, TaskType.code_analysis] 2
  let c := register_agent c "fastapi_backend_agent"
    [TaskType.api_development, TaskType.code_analysis, TaskType.refactoring,
     TaskType.performance_optimization] 3
  let c := register_agent c "test_agent"
    [TaskType.testing, TaskType.code_analysis, TaskType.performance_optimization] 4
  register_agent c "deployment_agent"
    [TaskType.deployment, TaskType.performance_optimization, TaskType.security_audit] 3

/-- Sort key used by create_task: self.tasks[tid].priority.value.  Queue ids
are always registered in the source; the default 0 covers the dead branch. -/
def queueKey (tasks : List (Nat × TaskInfo)) (tid : Nat) : Nat :=
  match assocGet tasks tid with
  | some t => t.priority.value
  | none => 0

/-- Descending-priority order on queued task ids; the relation underlying
`task_queue.sort(key=..., reverse=True)`. -/
def queueLe (tasks : List (Nat × TaskInfo)) (a b : Nat) : Prop :=
  queueKey tasks b ≤ queueKey tasks a

instance (tasks : List (Nat × TaskInfo)) : DecidableRel (queueLe tasks) :=
  fun a b => inferInstanceAs (Decidable (queueKey tasks b ≤ queueKey tasks a))

/-- The create_task method: insert the new TaskInfo into the registry,
append its id to the queue, then re-sort the whole queue by descending
priority value (stable sort, as list.sort in Python). -/
def create_task (c : Coordinator) (title description : String) (task_type : TaskType)
    (priority : TaskPriority := .medium) (dependencies : List Nat := [])
    (estimated_duration : Nat := 30) : Coordinator × Nat :=
  let id := c.next_id
  let task : TaskInfo :=
    { id := id
      title := title
      description := description
      task_type := task_type
      priority := priority
      status := .pending
      assigned_agent := none
      dependencies := dependencies
      estimated_duration := estimated_duration
      result := none
      error := none }
  let tasks' := assocSet c.tasks id task
  let queue' := List.insertionSort (queueLe tasks') (c.task_queue ++ [id])
  ({ c with tasks := tasks', task_queue := queue', next_id := c.next_id + 1 }, id)

/-- The queue order is total, because Nat ≤ on the keys is. -/
instance (tasks : List (Nat × TaskInfo)) : IsTotal Nat (queueLe tasks) :=
  ⟨fun a b => Nat.le_total (queueKey tasks b) (queueKey tasks a)⟩

/-- The queue order is transitive. -/
instance (tasks : List (Nat × TaskInfo)) : IsTrans Nat (queueLe tasks) :=
  ⟨fun _ _ _ hab hbc => Nat.le_trans hbc hab⟩

/-- Candidate filter of find_best_agent: capability match, availability,
and remaining concurrency headroom. -/
def capableFor (t : TaskInfo) (p : String × AgentInfo) : Bool :=
  p.2.capabilities.contains t.task_type && p.2.is_available &&
    decide (p.2.current_tasks.length < p.2.max_concurrent_tasks)

/-- Selection key of find_best_agent: (len(current_tasks), -performance_score),
compared lexicographically; Python min keeps the first minimum. -/
def agentKeyLt (x y : AgentInfo) : Bool :=
  decide (x.current_tasks.length < y.current_tasks.length) ||
    (decide (x.current_tasks.length = y.current_tasks.length) &&
      decide (-x.performance_score < -y.performance_score))

/-- Python min over a nonempty list with a strict comparison keeps the
first element among equal keys. -/
def minFirst (x : String × AgentInfo) (xs : List (String × AgentInfo)) :
    String × AgentInfo :=
  xs.foldl (fun best p => if agentKeyLt p.2 best.2 then p else best) x

/-- The find_best_agent method. -/
def find_best_agent (c : Coordinator) (task_id : Nat) : Option String :=
  match c.lookupTask task_id with
  | none => none
  | some task =>
    match c.agents.filter (capableFor task) with
    | [] => none
    | x :: xs => some (minFirst x xs).1

/-- Helper updating one task status in place. -/
def setTaskStatus (c : Coordinator) (tid : Nat) (st : TaskStatus) : Coordinator :=
  match c.lookupTask tid with
  | none => c
  | some t => { c with tasks := assocSet c.tasks tid { t with status := st } }

/-- Predicate for an unmet dependency: the dependency task is missing from
the registry or its status is not completed. -/
def depUnmet (c : Coordinator) (dep : Nat) : Bool :=
  match c.lookupTask dep with
  | none => true
  | some d => decide (d.status ≠ .completed)

/-- The assign_task method: refuse unless the task is pending; mark blocked
and refuse on the first unmet dependency; auto-select an agent when none is
given; refuse when the chosen agent is at its ceiling; otherwise mark the
task assigned, record the agent, and append to its current-task list. -/
def assign_task (c : Coordinator) (task_id : Nat) (agent_name : Option String := none) :
    Coordinator × Bool :=
  match c.lookupTask task_id with
  | none => (c, false)
  | some task =>
    if task.status ≠ .pending then (c, false)
    else if (task.dependencies.find? (depUnmet c)).isSome then
      (setTaskStatus c task_id .blocked, false)
    else
      let chosen := match agent_name with
        | some n => some n
        | none => find_best_agent c task_id
      match chosen with
      | none => (c, false)
      | some n =>
        match c.lookupAgent n with
        | none => (c, false)
        | some info =>
          if info.max_concurrent_tasks ≤ info.current_tasks.length then (c, false)
          else
            let task' := { task with assigned_agent := some n, status := TaskStatus.assigned }
            let info' := { info with current_tasks := info.current_tasks ++ [task_id] }
            ({ c with
                tasks := assocSet c.tasks task_id task'
                agents := assocSet c.agents n info' },
             true)

/-- Scenario for the dependency-gating claim: a code-analysis task (id 0)
and a documentation task (id 1) that depends on it, both still pending. -/
def c1Setup : Coordinator :=
  let s1 := create_task initCoordinator "dep" "analysis" .code_analysis
  let s2 := create_task s1.1 "main" "doc task" .documentation .medium [s1.2]
  s2.1

/-- The TaskInfo stored for id 1 in c1Setup. -/
def c1MainTask : TaskInfo :=
  { id := 1
    title := "main"
    description := "doc task"
    task_type := .documentation
    priority := .medium
    status := .pending
    assigned_agent := none
    dependencies := [0]
    estimated_duration := 30
    result := none
    error := none }

/-- State after the first assign_task call on task 1, which blocks it. -/
def c1Blocked : Coordinator :=
  (assign_task c1Setup 1 none).1

/-- State after the dependency task 0 has been marked completed while
task 1 is still blocked. -/
def c1DepDone : Coordinator :=
  setTaskStatus c1Blocked 0 .completed

/-- Fold of create_task over a list of priorities, starting from the
freshly initialized coordinator. -/
def insertPriorities (ps : List TaskPriority) : Coordinator :=
  ps.foldl (fun c p => (create_task c "task" "desc" .code_analysis p).1) initCoordinator

/-- Priorities of the queued tasks, in queue order. -/
def queuePriorities (c : Coordinator) : List (Option TaskPriority) :=
  c.task_queue.map (fun tid => (c.lookupTask tid).map (fun t => t.priority))

end Agents

namespace Backend

/-- Claim values carried in a token payload (ints and strings suffice for
the user_id/username claims the source puts in tokens). -/
inductive ClaimValue where
  | int (n : Int)
  | str (s : String)
deriving DecidableEq, Repr

/-- Decoded JWT payload.  The source stores the caller-supplied claim dict
plus the "exp" and "type" entries it writes with dict.update; the two
written entries are modelled as dedicated fields, which also captures the
overwrite of any same-named caller keys (see JWTPayload.get).  A value of
this type stands for a token signed with the configured secret; timestamps
are integer seconds as in the wire format. -/
structure JWTPayload where
  data : List (String × ClaimValue)
  exp : Int
  type : String
deriving DecidableEq, Repr

/-- Dictionary view of a payload: the "exp" and "type" keys written by
dict.update shadow any caller-supplied entries of the same name. -/
def JWTPayload.get (p : JWTPayload) (k : String) : Option ClaimValue :=
  if k = "exp" then some (.int p.exp)
  else if k = "type" then some (.str p.type)
  else (p.data.find? (fun q => q.1 == k)).map (fun q => q.2)

/-- The configured default access-token lifetime (minutes), from core/config.py. -/
def ACCESS_TOKEN_EXPIRE_MINUTES : Int := 30

/-- The configured refresh-token lifetime (days). -/
def REFRESH_TOKEN_EXPIRE_DAYS : Int := 7

/-- Truthiness of the Optional[timedelta] expires_delta argument: None and
the zero timedelta are falsy in Python, every other delta is truthy. -/
def truthyDelta : Option Int → Bool
  | none => false
  | some d => d != 0

/-- SecurityManager.create_access_token: copy the claims, compute the expiry
from the caller delta when that delta is truthy and from the configured
default otherwise, and stamp type "access".  now is the issuance instant in
seconds, expires_delta the caller delta in seconds. -/
def create_access_token (data : List (String × ClaimValue)) (now : Int)
    (expires_delta : Option Int := none) : JWTPayload :=
  let expire :=
    if truthyDelta expires_delta then now + expires_delta.getD 0
    else now + ACCESS_TOKEN_EXPIRE_MINUTES * 60
  { data := data, exp := expire, type := "access" }

/-- SecurityManager.create_refresh_token. -/
def create_refresh_token (data : List (String × ClaimValue)) (now : Int) : JWTPayload :=
  { data := data, exp := now + REFRESH_TOKEN_EXPIRE_DAYS * 24 * 60 * 60, type := "refresh" }

/-- Outcome of verify_token: the decoded payload, or an HTTPException with a
status code and detail string (all three raises carry WWW-Authenticate Bearer). -/
inductive VerifyResult where
  | ok (payload : JWTPayload)
  | error (status_code : Nat) (detail : String)
deriving DecidableEq, Repr

/-- SecurityManager.verify_token at wall-clock instant now: jwt.decode
raises ExpiredSignatureError when the exp claim is not in the future
(caught and re-raised as 401 "Token has expired"); a decoded payload whose
type claim differs from the expected one raises 401 "Invalid token type". -/
def verify_token (token : JWTPayload) (token_type : String) (now : Int) : VerifyResult :=
  if token.exp ≤ now then .error 401 "Token has expired"
  else if token.type ≠ token_type then .error 401 "Invalid token type"
  else .ok token

/-- EmployeeStatus enumeration from models/employee.py. -/
inductive EmployeeStatus where
  | active
  | inactive
  | suspended
  | probation
deriving DecidableEq, Repr

/-- Gender enumeration. -/
inductive Gender where
  | male
  | female
  | other
deriving DecidableEq, Repr

/-- Persistent user row (timestamp columns omitted; they carry no logic in
the claims under study). -/
structure UserRow where
  id : Nat
  username : String
  email : String
  hashed_password : String
  full_name : Option String
  phone : Option String
  bio : Option String
  is_active : Bool
  is_superuser : Bool
  is_verified : Bool
deriving DecidableEq, Repr

/-- UserCreate schema (schemas/user.py). -/
structure UserCreate where
  username : String
  email : String
  full_name : Option String
  phone : Option String
  bio : Option String
  password : String
  confirm_password : String
deriving DecidableEq, Repr

/-- Persistent department row. -/
structure DepartmentRow where
  id : Nat
  name : String
  code : String
  description : Option String
  parent_id : Option Nat
  level : Int
  path : String
  manager_id : Option Nat
  phone : Option String
  email : Option String
  address : Option String
  sort_order : Int
  is_active : Bool
deriving DecidableEq, Repr

/-- DepartmentCreate schema (schemas/department.py). -/
structure DepartmentCreate where
  name : String
  code : String
  description : Option String
  parent_id : Option Nat
  manager_id : Option Nat
  phone : Option String
  email : Option String
  address : Option String
  sort_order : Int
deriving DecidableEq, Repr

/-- DepartmentUpdate schema with pydantic exclude_unset semantics: the outer
Option records whether the field was supplied at all; for the nullable
foreign keys the inner Option is the supplied value (possibly null). -/
structure DepartmentUpdate where
  name : Option String
  description : Option (Option String)
  parent_id : Option (Option Nat)
  manager_id : Option (Option Nat)
  phone : Option (Option String)
  email : Option (Option String)
  address : Option (Option String)
  is_active : Option Bool
  sort_order : Option Int
deriving DecidableEq, Repr

/-- Persistent employee row.  Dates are integer day numbers; base_salary is
stored but never computed with, modelled as a rational. -/
structure EmployeeRow where
  id : Nat
  employee_no : String
  user_id : Nat
  name : String
  english_name : Option String
  id_card : Option String
  gender : Option Gender
  birth_date : Option Int
  phone : Option String
  email : Option String
  department_id : Option Nat
  position : Option String
  job_level : Option String
  hire_date : Option Int
  contract_start_date : Option Int
  contract_end_date : Option Int
  probation_months : Nat
  base_salary : Option Rat
  emergency_contact : Option String
  emergency_phone : Option String
  address : Option String
  notes : Option String
  status : EmployeeStatus
  is_active : Bool
deriving DecidableEq, Repr

/-- EmployeeCreate schema (schemas/employee.py).  Note: the create schema
declares no status and no is_active field, so a status-like value in the
request payload is dropped by validation before the CRUD layer runs. -/
structure EmployeeCreate where
  employee_no : String
  user_id : Nat
  name : String
  english_name : Option String
  id_card : Option String
  gender : Option Gender
  birth_date : Option Int
  phone : Option String
  email : Option String
  department_id : Option Nat
  position : Option String
  job_level : Option String
  hire_date : Option Int
  contract_start_date : Option Int
  contract_end_date : Option Int
  probation_months : Nat
  base_salary : Option Rat
  emergency_contact : Option String
  emergency_phone : Option String
  address : Option String
  notes : Option String
deriving DecidableEq, Repr

/-- The relational store: one list of rows per entity plus autoincrement
counters for the primary keys. -/
structure DB where
  users : List UserRow
  departments : List DepartmentRow
  employees : List EmployeeRow
  next_user_id : Nat
  next_dept_id : Nat
  next_emp_id : Nat
deriving DecidableEq, Repr

/-- Python truthiness of an Optional[int]: None and 0 are falsy. -/
def truthyOptNat : Option Nat → Bool
  | none => false
  | some n => n != 0

/-- Python truthiness of an Optional[str]: None and the empty string are falsy. -/
def truthyOptStr : Option String → Bool
  | none => false
  | some s => s != ""

/-- Stand-in for passlib bcrypt hashing; the source treats the hash as an
uninterpreted string and no claim under study depends on its value. -/
def hash_password (password : String) : String :=
  "$2b$12$" ++ password

/-- UserCRUD.get_user_by_username. -/
def get_user_by_username (db : DB) (username : String) : Option UserRow :=
  db.users.find? (fun r => r.username == username)

/-- UserCRUD.get_user_by_email. -/
def get_user_by_email (db : DB) (email : String) : Option UserRow :=
  db.users.find? (fun r => r.email == email)

/-- UserCRUD.create_user: reject a mismatched confirmation password, then a
duplicate username, then a duplicate email; otherwise insert the new row
with the hashed password, is_active true and is_verified false. -/
def create_user (db : DB) (user : UserCreate) : Except String (DB × UserRow) :=
  if user.password ≠ user.confirm_password then
    .error "密码和确认密码不匹配"
  else if (get_user_by_username db user.username).isSome then
    .error "用户名已存在"
  else if (get_user_by_email db user.email).isSome then
    .error "邮箱已存在"
  else
    let row : UserRow :=
      { id := db.next_user_id
        username := user.username
        email := user.email
        hashed_password := hash_password user.password
        full_name := user.full_name
        phone := user.phone
        bio := user.bio
        is_active := true
        is_superuser := false
        is_verified := false }
    let db' := { db with users := db.users ++ [row], next_user_id := db.next_user_id + 1 }
    .ok (db', row)

/-- DepartmentCRUD.get_department (the eager loads do not change the row). -/
def get_department (db : DB) (dept_id : Nat) : Option DepartmentRow :=
  db.departments.find? (fun r => r.id == dept_id)

/-- DepartmentCRUD.get_department_by_code. -/
def get_department_by_code (db : DB) (code : String) : Option DepartmentRow :=
  db.departments.find? (fun r => r.code == code)

/-- DepartmentCRUD.create_department: reject a duplicate code; compute
level/path from the parent chain when a truthy parent_id resolves to a
stored parent, and keep the root values (level 1, path = name) otherwise -
including when the supplied parent_id matches no stored department. -/
def create_department (db : DB) (department : DepartmentCreate) :
    Except String (DB × DepartmentRow) :=
  if (get_department_by_code db department.code).isSome then
    .error "部门编码已存在"
  else
    let lp : Int × String :=
      if truthyOptNat department.parent_id then
        match get_department db (department.parent_id.getD 0) with
        | some parent => (parent.level + 1, parent.path ++ " > " ++ department.name)
        | none => (1, department.name)
      else (1, department.name)
    let row : DepartmentRow :=
      { id := db.next_dept_id
        name := department.name
        code := department.code
        description := department.description
        parent_id := department.parent_id
        level := lp.1
        path := lp.2
        manager_id := department.manager_id
        phone := department.phone
        email := department.email
        address := department.address
        sort_order := department.sort_order
        is_active := true }
    let db' := { db with departments := db.departments ++ [row], next_dept_id := db.next_dept_id + 1 }
    .ok (db', row)

/-- Field application step of DepartmentCRUD.update_department: overwrite
exactly the supplied fields, with level/path recomputed only when the
parent_id key was supplied. -/
def applyDeptUpdate (dept : DepartmentRow) (u : DepartmentUpdate)
    (lp : Option (Int × String)) : DepartmentRow :=
  { dept with
    name := u.name.getD dept.name
    description := u.description.getD dept.description
    parent_id := u.parent_id.getD dept.parent_id
    manager_id := u.manager_id.getD dept.manager_id
    phone := u.phone.getD dept.phone
    email := u.email.getD dept.email
    address := u.address.getD dept.address
    is_active := u.is_active.getD dept.is_active
    sort_order := u.sort_order.getD dept.sort_order
    level := (lp.map (fun p => p.1)).getD dept.level
    path := (lp.map (fun p => p.2)).getD dept.path }

/-- Level/path recomputation step of DepartmentCRUD.update_department:
None when the parent_id key was not supplied at all; a truthy supplied
parent_id is resolved against the store (raising the ValueError for a
missing parent), a null supplied parent_id resets to the root values. -/
def deptUpdateLevelPath (db : DB) (dept : DepartmentRow) (u : DepartmentUpdate) :
    Except String (Option (Int × String)) :=
  match u.parent_id with
  | none => .ok none
  | some pv =>
    if truthyOptNat pv then
      match get_department db (pv.getD 0) with
      | some parent =>
        .ok (some (parent.level + 1, parent.path ++ " > " ++ (u.name.getD dept.name)))
      | none => .error "父部门不存在"
    else
      .ok (some (1, u.name.getD dept.name))

/-- DepartmentCRUD.update_department: None result is the missing-department
case; a supplied parent_id recomputes level and path against the new parent
via deptUpdateLevelPath; only the targeted row is written. -/
def update_department (db : DB) (dept_id : Nat) (u : DepartmentUpdate) :
    Except String (Option (DB × DepartmentRow)) :=
  match get_department db dept_id with
  | none => .ok none
  | some dept =>
    match deptUpdateLevelPath db dept u with
    | .error e => .error e
    | .ok lp =>
      let row := applyDeptUpdate dept u lp
      let rows' := db.departments.map (fun r => if r.id == dept_id then row else r)
      let db' := { db with departments := rows' }
      .ok (some (db', row))

/-- DepartmentCRUD.delete_department: None is the missing-department case;
the child guard counts every department whose parent_id equals the target
id, with no is_active filter; with no children the row is soft-deleted by
clearing is_active. -/
def delete_department (db : DB) (dept_id : Nat) : Except String (Option DB) :=
  match get_department db dept_id with
  | none => .ok none
  | some _ =>
    let children_count := db.departments.countP (fun r => r.parent_id == some dept_id)
    if 0 < children_count then
      .error "部门下存在子部门，无法删除"
    else
      let rows' := db.departments.map (fun r =>
        if r.id == dept_id then { r with is_active := false } else r)
      .ok (some { db with departments := rows' })

/-- EmployeeCRUD.get_employee_by_no. -/
def get_employee_by_no (db : DB) (employee_no : String) : Option EmployeeRow :=
  db.employees.find? (fun r => r.employee_no == employee_no)

/-- EmployeeCRUD.get_employee_by_user_id. -/
def get_employee_by_user_id (db : DB) (user_id : Nat) : Option EmployeeRow :=
  db.employees.find? (fun r => r.user_id == user_id)

/-- EmployeeCRUD.create_employee: reject a duplicate employee number, a user
that already has a profile, a missing user, and a truthy department_id that
matches no stored department; the persisted row always carries status
probation and is_active true. -/
def create_employee (db : DB) (employee : EmployeeCreate) :
    Except String (DB × EmployeeRow) :=
  if (get_employee_by_no db employee.employee_no).isSome then
    .error "员工工号已存在"
  else if (get_employee_by_user_id db employee.user_id).isSome then
    .error "该用户已有员工档案"
  else if (db.users.find? (fun r => r.id == employee.user_id)).isNone then
    .error "用户不存在"
  else if truthyOptNat employee.department_id &&
      (get_department db (employee.department_id.getD 0)).isNone then
    .error "部门不存在"
  else
    let row : EmployeeRow :=
      { id := db.next_emp_id
        employee_no := employee.employee_no
        user_id := employee.user_id
        name := employee.name
        english_name := employee.english_name
        id_card := employee.id_card
        gender := employee.gender
        birth_date := employee.birth_date
        phone := employee.phone
        email := employee.email
        department_id := employee.department_id
        position := employee.position
        job_level := employee.job_level
        hire_date := employee.hire_date
        contract_start_date := employee.contract_start_date
        contract_end_date := employee.contract_end_date
        probation_months := employee.probation_months
        base_salary := employee.base_salary
        emergency_contact := employee.emergency_contact
        emergency_phone := employee.emergency_phone
        address := employee.address
        notes := employee.notes
        status := .probation
        is_active := true }
    let db' := { db with employees := db.employees ++ [row], next_emp_id := db.next_emp_id + 1 }
    .ok (db', row)

/-- Router wrapper of POST /api/v1/auth/register: ValueError becomes HTTP
400 with the session unchanged, success is HTTP 201 with the new row added. -/
def register_endpoint (db : DB) (user : UserCreate) : DB × Nat :=
  match create_user db user with
  | .error _ => (db, 400)
  | .ok (db', _) => (db', 201)

/-- Router wrapper of POST /api/v1/departments/. -/
def create_department_endpoint (db : DB) (department : DepartmentCreate) : DB × Nat :=
  match create_department db department with
  | .error _ => (db, 400)
  | .ok (db', _) => (db', 201)

/-- Router wrapper of POST /api/v1/employees/. -/
def create_employee_endpoint (db : DB) (employee : EmployeeCreate) : DB × Nat :=
  match create_employee db employee with
  | .error _ => (db, 400)
  | .ok (db', _) => (db', 201)

/-- Router wrapper of DELETE /api/v1/departments/id: ValueError becomes 400,
a False CRUD result becomes 404, success is 200. -/
def delete_department_endpoint (db : DB) (dept_id : Nat) : DB × Nat :=
  match delete_department db dept_id with
  | .error _ => (db, 400)
  | .ok none => (db, 404)
  | .ok (some db') => (db', 200)

/-- Filter step of DepartmentCRUD.get_departments and get_departments_count:
a truthy name is a substring filter, is_active and parent_id filter when
supplied (is-not-None tests in the source). -/
def deptFilter (name : Option String) (is_active : Option Bool)
    (parent_id : Option Nat) (r : DepartmentRow) : Bool :=
  (!truthyOptStr name || r.name.containsSubstr (name.getD "")) &&
    (is_active.map (fun b => r.is_active == b)).getD true &&
    (parent_id.map (fun p => r.parent_id == some p)).getD true

/-- Ordering key of order_by(sort_order, created_at): a stable sort on
sort_order; the created_at tie-break is the insertion order the stable
sort preserves. -/
def deptOrder (a b : DepartmentRow) : Prop :=
  a.sort_order ≤ b.sort_order

instance : DecidableRel deptOrder :=
  fun a b => inferInstanceAs (Decidable (a.sort_order ≤ b.sort_order))

/-- DepartmentCRUD.get_departments: filter, order, offset, limit. -/
def get_departments (db : DB) (skip limit : Nat) (name : Option String)
    (is_active : Option Bool) (parent_id : Option Nat) : List DepartmentRow :=
  let filtered := db.departments.filter (deptFilter name is_active parent_id)
  ((List.insertionSort deptOrder filtered).drop skip).take limit

/-- DepartmentCRUD.get_departments_count: same filters, count only. -/
def get_departments_count (db : DB) (name : Option String)
    (is_active : Option Bool) (parent_id : Option Nat) : Nat :=
  (db.departments.filter (deptFilter name is_active parent_id)).length

/-- Metadata of the paginated department listing response. -/
structure DeptListResponse where
  items : List DepartmentRow
  total : Nat
  page : Nat
  size : Nat
  pages : Nat
deriving DecidableEq, Repr

/-- The GET /api/v1/departments/ handler: skip is (page - 1) * size, the
page of items comes from get_departments, total from the count query, and
pages is the integer ceiling (total + size - 1) / size. -/
def get_departments_endpoint (db : DB) (page size : Nat) (name : Option String)
    (is_active : Option Bool) (parent_id : Option Nat) : DeptListResponse :=
  let skip := (page - 1) * size
  let departments := get_departments db skip size name is_active parent_id
  let total := get_departments_count db name is_active parent_id
  let pages := (total + size - 1) / size
  { items := departments, total := total, page := page, size := size, pages := pages }

/-- Claim map of the token round-trip scenario. -/
def c4Data : List (String × ClaimValue) :=
  [("user_id", .int 1), ("username", .str "alice")]

/-- Department row builder for the scenario stores. -/
def mkDeptRow (i : Nat) (name code : String) (parent : Option Nat) (lvl : Int)
    (path : String) (active : Bool) : DepartmentRow :=
  { id := i
    name := name
    code := code
    description := none
    parent_id := parent
    level := lvl
    path := path
    manager_id := none
    phone := none
    email := none
    address := none
    sort_order := 0
    is_active := active }

/-- Empty store. -/
def emptyDB : DB :=
  { users := []
    departments := []
    employees := []
    next_user_id := 1
    next_dept_id := 1
    next_emp_id := 1 }

/-- Scenario store for the delete claim: an active root department (id 1)
whose only child department (id 2) is inactive, plus a childless active
root department (id 3). -/
def c2DB : DB :=
  { emptyDB with departments :=
      [mkDeptRow 1 "总部" "HQ" none 1 "总部" true,
       mkDeptRow 2 "旧部" "OLD" (some 1) 2 "总部 > 旧部" false,
       mkDeptRow 3 "分部" "BR" none 1 "分部" true] }

/-- The c2DB store after the successful soft delete of department 3. -/
def c2DBAfter : DB :=
  { emptyDB with departments :=
      [mkDeptRow 1 "总部" "HQ" none 1 "总部" true,
       mkDeptRow 2 "旧部" "OLD" (some 1) 2 "总部 > 旧部" false,
       mkDeptRow 3 "分部" "BR" none 1 "分部" false] }

/-- Stored user for the employee scenarios. -/
def aliceRow : UserRow :=
  { id := 1
    username := "alice"
    email := "alice@x.com"
    hashed_password := hash_password "p@ssword1"
    full_name := none
    phone := none
    bio := none
    is_active := true
    is_superuser := false
    is_verified := false }

/-- Store holding only the user alice. -/
def c3DB : DB :=
  { emptyDB with users := [aliceRow], next_user_id := 2 }

/-- Employee-creation input for the scenarios. -/
def c3Input : EmployeeCreate :=
  { employee_no := "EMP001"
    user_id := 1
    name := "张三"
    english_name := none
    id_card := none
    gender := none
    birth_date := none
    phone := none
    email := none
    department_id := none
    position := none
    job_level := none
    hire_date := none
    contract_start_date := none
    contract_end_date := none
    probation_months := 3
    base_salary := none
    emergency_contact := none
    emergency_phone := none
    address := none
    notes := none }

/-- Plain active root department used to populate the pagination store. -/
def plainDeptRow (i : Nat) : DepartmentRow :=
  mkDeptRow i "部门" "D" none 1 "部门" true

/-- Store with n departments, for the pagination instances. -/
def dbWithDepts (n : Nat) : DB :=
  { emptyDB with departments := (List.range n).map plainDeptRow, next_dept_id := n + 1 }

/-- Store with one root department, for the level/path scenarios. -/
def c7DB : DB :=
  { emptyDB with
      departments := [mkDeptRow 1 "总部" "HQ" none 1 "总部" true]
      next_dept_id := 2 }

/-- Child-creation input pointing at the stored root. -/
def c7Create : DepartmentCreate :=
  { name := "研发"
    code := "RD"
    description := none
    parent_id := some 1
    manager_id := none
    phone := none
    email := none
    address := none
    sort_order := 0 }

/-- Update object with no field supplied. -/
def emptyDeptUpdate : DepartmentUpdate :=
  { name := none
    description := none
    parent_id := none
    manager_id := none
    phone := none
    email := none
    address := none
    is_active := none
    sort_order := none }

/-- Store with a chain A > B > C plus a second root D, for re-parenting. -/
def c10DB : DB :=
  { emptyDB with
      departments :=
        [mkDeptRow 1 "A" "CA" none 1 "A" true,
         mkDeptRow 2 "B" "CB" (some 1) 2 "A > B" true,
         mkDeptRow 3 "C" "CC" (some 2) 3 "A > B > C" true,
         mkDeptRow 4 "D" "CD" none 1 "D" true]
      next_dept_id := 5 }

/-- Update that re-parents its target under department 4. -/
def c10Update : DepartmentUpdate :=
  { emptyDeptUpdate with parent_id := some (some 4) }

/-- Registration input clashing with the stored username alice. -/
def c8UserInput : UserCreate :=
  { username := "alice"
    email := "new@x.com"
    full_name := none
    phone := none
    bio := none
    password := "p@ssword1"
    confirm_password := "p@ssword1" }

/-- Department-creation input clashing with the stored code HQ. -/
def c8DeptInput : DepartmentCreate :=
  { c7Create with name := "新部", code := "HQ", parent_id := none }

/-- Stored employee row for the duplicate-number scenario. -/
def c8EmpRow : EmployeeRow :=
  { id := 1
    employee_no := "EMP001"
    user_id := 1
    name := "张三"
    english_name := none
    id_card := none
    gender := none
    birth_date := none
    phone := none
    email := none
    department_id := none
    position := none
    job_level := none
    hire_date := none
    contract_start_date := none
    contract_end_date := none
    probation_months := 3
    base_salary := none
    emergency_contact := none
    emergency_phone := none
    address := none
    notes := none
    status := .probation
    is_active := true }

/-- Store for the duplicate-employee-number scenario. -/
def c8DB : DB :=
  { c3DB with
      departments := [mkDeptRow 1 "总部" "HQ" none 1 "总部" true]
      employees := [c8EmpRow]
      next_emp_id := 2 }

/-- Employee input clashing with the stored employee number EMP001. -/
def c8EmpInput : EmployeeCreate :=
  { c3Input with user_id := 2 }

/-- Creation input whose parent_id (77) matches no stored department. -/
def c9Create : DepartmentCreate :=
  { c7Create with name := "孤儿", code := "ORPH", parent_id := some 77 }

/-- Update whose new parent_id (77) matches no stored department. -/
def c9Update : DepartmentUpdate :=
  { emptyDeptUpdate with parent_id := some (some 77) }

/-- Root-creation input for the level/path scenarios. -/
def c7CreateRoot : DepartmentCreate :=
  { c7Create with name := "行政", code := "ADM", parent_id := none }

/-- Update that clears the parent_id of its target. -/
def c10ClearParent : DepartmentUpdate :=
  { emptyDeptUpdate with parent_id := some none }

/-- The row produced by re-parenting department 2 of c10DB under 4. -/
def c10Row : DepartmentRow :=
  mkDeptRow 2 "B" "CB" (some 4) 2 "D > B" true

/-- The c10DB store after re-parenting department 2 under department 4;
the grandchild row (id 3) keeps its old level 3 and path A > B > C. -/
def c10DBAfter : DB :=
  { emptyDB with
      departments :=
        [mkDeptRow 1 "A" "CA" none 1 "A" true,
         mkDeptRow 2 "B" "CB" (some 4) 2 "D > B" true,
         mkDeptRow 3 "C" "CC" (some 2) 3 "A > B > C" true,
         mkDeptRow 4 "D" "CD" none 1 "D" true]
      next_dept_id := 5 }

end Backend

/-- C6: after every create_task call, for any prior coordinator state and
any creation arguments, the task queue is sorted by non-increasing priority
value; and inserting tasks with priorities critical, low, high in any of
the six insertion orders yields the queue order critical, high, low. -/
theorem c6_task_queue_sorted_after_create :
    (∀ (c : Agents.Coordinator) (title descr : String) (tt : Agents.TaskType)
        (pr : Agents.TaskPriority) (deps : List Nat) (dur : Nat),
      ((Agents.create_task c title descr tt pr deps dur).1.task_queue).Pairwise
        (Agents.queueLe (Agents.create_task c title descr tt pr deps dur).1.tasks)) ∧
    ((([[Agents.TaskPriority.critical, .low, .high], [.critical, .high, .low],
        [.low, .critical, .high], [.low, .high, .critical],
        [.high, .critical, .low], [.high, .low, .critical]]).all
        (fun ps => decide (Agents.queuePriorities (Agents.insertPriorities ps) =
          [some .critical, some .high, some .low]))) = true) := by
  constructor
  · intro c title descr tt pr deps dur
    simp only [Agents.create_task]
    exact List.sorted_insertionSort (Agents.queueLe _) _
  · decide

/-- C1 (amended): assigning a pending task with an unmet dependency fails
and marks the task blocked; but a subsequent assign_task call on the
blocked task also fails and leaves the state unchanged, whatever the agent
argument — assign_task succeeds only for tasks whose status is pending, and
no code path returns a blocked task to pending. -/
theorem c1_assign_task_dependency_gating (c : Agents.Coordinator) (tid : Nat)
    (task : Agents.TaskInfo) (h : c.lookupTask tid = some task) :
    (task.status = .pending →
      (∃ d ∈ task.dependencies, Agents.depUnmet c d = true) →
      ∀ an, Agents.assign_task c tid an = (Agents.setTaskStatus c tid .blocked, false)) ∧
    (task.status = .blocked →
      ∀ an, Agents.assign_task c tid an = (c, false)) := by
  constructor
  · intro hp hdep an
    have hfind : (task.dependencies.find? (Agents.depUnmet c)).isSome := by
      rw [List.find?_isSome]
      obtain ⟨d, hd, hu⟩ := hdep
      exact ⟨d, hd, hu⟩
    simp [Agents.assign_task, h, hp, hfind]
  · intro hb an
    simp [Agents.assign_task, h, hb]

/-- Witness of the C1 theorem at the two-task scenario. -/
theorem c1_assign_task_dependency_gating_witness :
    Agents.assign_task Agents.c1Setup 1 none =
      (Agents.setTaskStatus Agents.c1Setup 1 .blocked, false) :=
  (c1_assign_task_dependency_gating Agents.c1Setup 1 Agents.c1MainTask (by decide)).1
    (by decide) ⟨0, by decide, by decide⟩ none

/-- Counterexample to C1 as stated: in c1DepDone the only dependency of
task 1 is completed and task 1 is blocked, yet the subsequent assign_task
call returns failure both with the automatic agent selection and with an
explicitly named capable agent. -/
theorem c1_counterexample :
    ((Agents.c1DepDone.lookupTask 0).map (fun t => t.status) =
        some Agents.TaskStatus.completed) ∧
    ((Agents.c1DepDone.lookupTask 1).map (fun t => t.status) =
        some Agents.TaskStatus.blocked) ∧
    (Agents.assign_task Agents.c1DepDone 1 none).2 = false ∧
    (Agents.assign_task Agents.c1DepDone 1 (some "documentation_agent")).2 = false := by
  decide

/-- C4: a token issued by create_access_token, verified before its expiry
with token_type access, round-trips (same claims, type access); verified
with token_type refresh it fails 401 Invalid token type; verified at or
after its expiry instant it fails 401 Token has expired. -/
theorem c4_token_round_trip (data : List (String × Backend.ClaimValue))
    (now t : Int) (delta : Option Int) :
    (t < (Backend.create_access_token data now delta).exp →
      Backend.verify_token (Backend.create_access_token data now delta) "access" t =
        .ok (Backend.create_access_token data now delta) ∧
      (Backend.create_access_token data now delta).data = data ∧
      (Backend.create_access_token data now delta).type = "access") ∧
    (t < (Backend.create_access_token data now delta).exp →
      Backend.verify_token (Backend.create_access_token data now delta) "refresh" t =
        .error 401 "Invalid token type") ∧
    ((Backend.create_access_token data now delta).exp ≤ t →
      Backend.verify_token (Backend.create_access_token data now delta) "access" t =
        .error 401 "Token has expired") := by
  have htype : (Backend.create_access_token data now delta).type = "access" := rfl
  have hdata : (Backend.create_access_token data now delta).data = data := rfl
  refine ⟨fun h => ⟨?_, hdata, htype⟩, fun h => ?_, fun h => ?_⟩
  · have h1 : ¬((Backend.create_access_token data now delta).exp ≤ t) := not_le.mpr h
    have h2 : ¬((Backend.create_access_token data now delta).type ≠ "access") := by
      rw [htype]
      exact fun hne => hne rfl
    simp only [Backend.verify_token, if_neg h1, if_neg h2]
  · have h1 : ¬((Backend.create_access_token data now delta).exp ≤ t) := not_le.mpr h
    have h3 : (Backend.create_access_token data now delta).type ≠ "refresh" := by
      rw [htype]
      decide
    simp only [Backend.verify_token, if_neg h1, if_pos h3]
  · simp only [Backend.verify_token, if_pos h]

/-- Witness of the C4 theorem at a concrete claim map, with a 60-second
lifetime verified at 30 seconds and a negative lifetime verified at issue
time. -/
theorem c4_token_round_trip_witness :
    (Backend.verify_token (Backend.create_access_token Backend.c4Data 0 (some 60))
        "access" 30 = .ok (Backend.create_access_token Backend.c4Data 0 (some 60))) ∧
    (Backend.verify_token (Backend.create_access_token Backend.c4Data 0 (some 60))
        "refresh" 30 = .error 401 "Invalid token type") ∧
    (Backend.verify_token (Backend.create_access_token Backend.c4Data 0 (some (-60)))
        "access" 0 = .error 401 "Token has expired") :=
  ⟨((c4_token_round_trip Backend.c4Data 0 30 (some 60)).1 (by decide)).1,
   (c4_token_round_trip Backend.c4Data 0 30 (some 60)).2.1 (by decide),
   (c4_token_round_trip Backend.c4Data 0 0 (some (-60))).2.2 (by decide)⟩

/-- Ceiling bounds of the pagination formula (total + size - 1) / size. -/
theorem ceil_div_bounds (size T : Nat) (hsize : 1 ≤ size) :
    T ≤ ((T + size - 1) / size) * size ∧
    (((T + size - 1) / size) ≠ 0 → (((T + size - 1) / size) - 1) * size < T) := by
  obtain ⟨q, hq⟩ : ∃ q, q = (T + size - 1) / size := ⟨_, rfl⟩
  obtain ⟨m, hm⟩ : ∃ m, m = (T + size - 1) % size := ⟨_, rfl⟩
  have hmod := Nat.div_add_mod (T + size - 1) size
  have hlt : (T + size - 1) % size < size := Nat.mod_lt _ (by omega)
  rw [← hq, ← hm] at hmod
  rw [← hm] at hlt
  rw [← hq]
  rw [Nat.mul_comm size q] at hmod
  constructor
  · omega
  · intro hq0
    have hsz : size ≤ q * size := Nat.le_mul_of_pos_left size (Nat.pos_of_ne_zero hq0)
    rw [Nat.sub_mul, Nat.one_mul]
    omega

/-- C5: the department listing endpoint uses skip = (page - 1) * size as
the offset into the ordered filtered rows, and pages = (total + size - 1)
/ size, which is the integer ceiling of total / size; 25 rows at size 10
give pages 3 and an empty store gives pages 0. -/
theorem c5_pagination (db : Backend.DB) (page size : Nat) (name : Option String)
    (is_active : Option Bool) (parent_id : Option Nat) (hsize : 1 ≤ size) :
    ((Backend.get_departments_endpoint db page size name is_active parent_id).pages =
      ((Backend.get_departments_endpoint db page size name is_active parent_id).total
        + size - 1) / size) ∧
    ((Backend.get_departments_endpoint db page size name is_active parent_id).total ≤
      (Backend.get_departments_endpoint db page size name is_active parent_id).pages
        * size) ∧
    ((Backend.get_departments_endpoint db page size name is_active parent_id).pages ≠ 0 →
      ((Backend.get_departments_endpoint db page size name is_active parent_id).pages - 1)
        * size <
      (Backend.get_departments_endpoint db page size name is_active parent_id).total) ∧
    ((Backend.get_departments_endpoint db page size name is_active parent_id).items =
      ((List.insertionSort Backend.deptOrder
          (db.departments.filter (Backend.deptFilter name is_active parent_id))).drop
        ((page - 1) * size)).take size) ∧
    ((Backend.get_departments_endpoint (Backend.dbWithDepts 25) 1 10 none none none).pages
      = 3) ∧
    ((Backend.get_departments_endpoint Backend.emptyDB 1 10 none none none).pages = 0) :=
  ⟨rfl, (ceil_div_bounds size _ hsize).1, (ceil_div_bounds size _ hsize).2, rfl,
   by decide, by decide⟩

/-- Witness of the C5 theorem on the 25-row store at page 2, size 10. -/
theorem c5_pagination_witness :
    ((Backend.get_departments_endpoint (Backend.dbWithDepts 25) 2 10 none none none).pages =
      ((Backend.get_departments_endpoint (Backend.dbWithDepts 25) 2 10 none none none).total
        + 10 - 1) / 10) ∧
    ((Backend.get_departments_endpoint (Backend.dbWithDepts 25) 2 10 none none none).total ≤
      (Backend.get_departments_endpoint (Backend.dbWithDepts 25) 2 10 none none none).pages
        * 10) ∧
    ((Backend.get_departments_endpoint (Backend.dbWithDepts 25) 2 10 none none none).pages
        ≠ 0 →
      ((Backend.get_departments_endpoint (Backend.dbWithDepts 25) 2 10 none none
          none).pages - 1) * 10 <
      (Backend.get_departments_endpoint (Backend.dbWithDepts 25) 2 10 none none
        none).total) ∧
    ((Backend.get_departments_endpoint (Backend.dbWithDepts 25) 2 10 none none none).items =
      ((List.insertionSort Backend.deptOrder
          ((Backend.dbWithDepts 25).departments.filter
            (Backend.deptFilter none none none))).drop ((2 - 1) * 10)).take 10) ∧
    ((Backend.get_departments_endpoint (Backend.dbWithDepts 25) 1 10 none none none).pages
      = 3) ∧
    ((Backend.get_departments_endpoint Backend.emptyDB 1 10 none none none).pages = 0) :=
  c5_pagination (Backend.dbWithDepts 25) 2 10 none none none (by decide)

/-- C3: every successful create_employee call persists its new row with
status probation and is_active true, whatever the validated input carried
(the create schema declares no status-like field, so any status supplied in
the request payload is dropped before the CRUD layer runs). -/
theorem c3_employee_initial_status (db : Backend.DB) (e : Backend.EmployeeCreate)
    (db' : Backend.DB) (row : Backend.EmployeeRow)
    (h : Backend.create_employee db e = .ok (db', row)) :
    row.status = .probation ∧ row.is_active = true ∧ row ∈ db'.employees := by
  unfold Backend.create_employee at h
  split_ifs at h
  all_goals
    first
      | exact Except.noConfusion h
      | (simp only [Except.ok.injEq, Prod.mk.injEq] at h
         obtain ⟨hdb, hrow⟩ := h
         subst hdb
         subst hrow
         exact ⟨rfl, rfl, by simp⟩)

/-- Witness of the C3 theorem: creating EMP001 for the stored user alice. -/
theorem c3_employee_initial_status_witness :
    ((Backend.create_employee Backend.c3DB Backend.c3Input).toOption.map
      (fun p => (p.2.status, p.2.is_active))) =
      some (Backend.EmployeeStatus.probation, true) := by
  have h : ∃ db' row, Backend.create_employee Backend.c3DB Backend.c3Input =
      .ok (db', row) := ⟨_, _, rfl⟩
  obtain ⟨db', row, hok⟩ := h
  have hc := c3_employee_initial_status Backend.c3DB Backend.c3Input db' row hok
  rw [hok]
  show some (row.status, row.is_active) = some (Backend.EmployeeStatus.probation, true)
  rw [hc.1, hc.2.1]

/-- C2 (amended): for a stored department the delete endpoint rejects with
400 exactly when the department has at least one child row - active or not
- leaving the store unchanged; when the department has no child row at all
the delete succeeds with 200, clears exactly the is_active flag of the
target row and keeps every other row unchanged. -/
theorem c2_delete_department_child_guard (db : Backend.DB) (dept_id : Nat)
    (dept : Backend.DepartmentRow)
    (h : Backend.get_department db dept_id = some dept) :
    (0 < db.departments.countP (fun r => r.parent_id == some dept_id) →
      Backend.delete_department_endpoint db dept_id = (db, 400)) ∧
    (db.departments.countP (fun r => r.parent_id == some dept_id) = 0 →
      ∃ db', Backend.delete_department_endpoint db dept_id = (db', 200) ∧
        db'.users = db.users ∧ db'.employees = db.employees ∧
        db'.departments = db.departments.map (fun r =>
          if r.id == dept_id then { r with is_active := false } else r) ∧
        (∀ r ∈ db.departments, r.id ≠ dept_id → r ∈ db'.departments) ∧
        { dept with is_active := false } ∈ db'.departments) := by
  constructor
  · intro hc
    have hdel : Backend.delete_department db dept_id =
        .error "部门下存在子部门，无法删除" := by
      unfold Backend.delete_department
      rw [h]
      simp [hc]
    unfold Backend.delete_department_endpoint
    rw [hdel]
  · intro hc
    have hdel : Backend.delete_department db dept_id =
        .ok (some { db with departments := db.departments.map (fun r =>
          if r.id == dept_id then { r with is_active := false } else r) }) := by
      unfold Backend.delete_department
      rw [h]
      simp [hc]
    refine ⟨{ db with departments := db.departments.map (fun r =>
        if r.id == dept_id then { r with is_active := false } else r) },
      ?_, rfl, rfl, rfl, ?_, ?_⟩
    · unfold Backend.delete_department_endpoint
      rw [hdel]
    · intro r hr hne
      refine List.mem_map.mpr ⟨r, hr, ?_⟩
      have hb : (r.id == dept_id) = false := by simp [hne]
      simp [hb]
    · have h' : db.departments.find? (fun r => r.id == dept_id) = some dept := h
      have hmem : dept ∈ db.departments := List.mem_of_find?_eq_some h'
      have hid := List.find?_some h'
      refine List.mem_map.mpr ⟨dept, hmem, ?_⟩
      simp only [] at hid
      simp [hid]

/-- Witness of the C2 theorem on c2DB: department 1 has a child row, so the
delete is rejected and the store is unchanged; department 3 has none, so it
is soft-deleted with everything but its is_active flag kept. -/
theorem c2_delete_department_child_guard_witness :
    (Backend.delete_department_endpoint Backend.c2DB 1 = (Backend.c2DB, 400)) ∧
    (Backend.delete_department_endpoint Backend.c2DB 3 = (Backend.c2DBAfter, 200)) ∧
    Backend.c2DBAfter.users = Backend.c2DB.users ∧
    { Backend.mkDeptRow 3 "分部" "BR" none 1 "分部" true with is_active := false } ∈
      Backend.c2DBAfter.departments := by
  have h1 := (c2_delete_department_child_guard Backend.c2DB 1
    (Backend.mkDeptRow 1 "总部" "HQ" none 1 "总部" true) rfl).1 (by decide)
  have h2 := (c2_delete_department_child_guard Backend.c2DB 3
    (Backend.mkDeptRow 3 "分部" "BR" none 1 "分部" true) rfl).2 (by decide)
  obtain ⟨db', hend, hu, _, _, _, hm⟩ := h2
  have hpin : (db', 200) = (Backend.c2DBAfter, 200) := by
    rw [← hend]
    rfl
  have hdb : db' = Backend.c2DBAfter := ((Prod.mk.injEq _ _ _ _).mp hpin).1
  subst hdb
  exact ⟨h1, hend, hu, hm⟩

/-- Counterexample to C2 as stated: department 1 of c2DB has no active
child - its only child, department 2, has is_active false - yet
delete_department raises the child-guard ValueError and the endpoint
answers 400 with the store unchanged, where the claim requires success. -/
theorem c2_counterexample :
    ((Backend.c2DB.departments.filter
        (fun r => r.parent_id == some 1 && r.is_active)).length = 0) ∧
    Backend.delete_department Backend.c2DB 1 = .error "部门下存在子部门，无法删除" ∧
    (Backend.delete_department_endpoint Backend.c2DB 1).2 = 400 ∧
    (Backend.delete_department_endpoint Backend.c2DB 1).1 = Backend.c2DB :=
  ⟨by decide, rfl, by decide, by decide⟩

/-- C7: a department created with no parent is persisted with level 1 and
path equal to its name; one created under a stored parent P gets level
P.level + 1 and path P.path > name; an update that re-parents a stored
department under a stored parent P recomputes level and path by the same
rule, and an update that supplies a null parent_id resets level to 1 and
path to the (possibly updated) department name. -/
theorem c7_department_level_path (db : Backend.DB) :
    (∀ (d : Backend.DepartmentCreate) (db' : Backend.DB) (row : Backend.DepartmentRow),
      d.parent_id = none →
      Backend.create_department db d = .ok (db', row) →
      row.level = 1 ∧ row.path = d.name) ∧
    (∀ (d : Backend.DepartmentCreate) (p : Nat) (P : Backend.DepartmentRow)
        (db' : Backend.DB) (row : Backend.DepartmentRow),
      d.parent_id = some p → p ≠ 0 →
      Backend.get_department db p = some P →
      Backend.create_department db d = .ok (db', row) →
      row.level = P.level + 1 ∧ row.path = P.path ++ " > " ++ d.name) ∧
    (∀ (dept_id : Nat) (u : Backend.DepartmentUpdate) (p : Nat)
        (P dept : Backend.DepartmentRow) (db' : Backend.DB)
        (row : Backend.DepartmentRow),
      Backend.get_department db dept_id = some dept →
      u.parent_id = some (some p) → p ≠ 0 →
      Backend.get_department db p = some P →
      Backend.update_department db dept_id u = .ok (some (db', row)) →
      row.level = P.level + 1 ∧
      row.path = P.path ++ " > " ++ (u.name.getD dept.name)) ∧
    (∀ (dept_id : Nat) (u : Backend.DepartmentUpdate)
        (dept : Backend.DepartmentRow) (db' : Backend.DB)
        (row : Backend.DepartmentRow),
      Backend.get_department db dept_id = some dept →
      u.parent_id = some none →
      Backend.update_department db dept_id u = .ok (some (db', row)) →
      row.level = 1 ∧ row.path = u.name.getD dept.name) := by
  refine ⟨?_, ?_, ?_, ?_⟩
  · intro d db' row hpar h
    by_cases hcode : (Backend.get_department_by_code db d.code).isSome
    · unfold Backend.create_department at h
      rw [if_pos hcode] at h
      exact Except.noConfusion h
    · unfold Backend.create_department at h
      rw [if_neg hcode, hpar] at h
      simp only [Backend.truthyOptNat] at h
      simp at h
      obtain ⟨hdb, hrow⟩ := h
      subst hrow
      exact ⟨rfl, rfl⟩
  · intro d p P db' row hpar hp0 hP h
    by_cases hcode : (Backend.get_department_by_code db d.code).isSome
    · unfold Backend.create_department at h
      rw [if_pos hcode] at h
      exact Except.noConfusion h
    · unfold Backend.create_department at h
      rw [if_neg hcode, hpar] at h
      have htr : Backend.truthyOptNat (some p) = true := by
        simp [Backend.truthyOptNat, hp0]
      rw [if_pos htr] at h
      simp only [Option.getD_some] at h
      rw [hP] at h
      simp at h
      obtain ⟨hdb, hrow⟩ := h
      subst hrow
      exact ⟨rfl, rfl⟩
  · intro dept_id u p P dept db' row hdept hu hp0 hP h
    unfold Backend.update_department Backend.deptUpdateLevelPath at h
    rw [hdept, hu] at h
    have htr : Backend.truthyOptNat (some p) = true := by
      simp [Backend.truthyOptNat, hp0]
    simp [htr, hP] at h
    obtain ⟨hdb, hrow⟩ := h
    subst hrow
    constructor
    · simp [Backend.applyDeptUpdate]
    · simp [Backend.applyDeptUpdate]
  · intro dept_id u dept db' row hdept hu h
    unfold Backend.update_department Backend.deptUpdateLevelPath at h
    rw [hdept, hu] at h
    simp [Backend.truthyOptNat] at h
    obtain ⟨hdb, hrow⟩ := h
    subst hrow
    constructor
    · simp [Backend.applyDeptUpdate]
    · simp [Backend.applyDeptUpdate]

/-- Witness of the C7 theorem: a root creation, a child creation under the
stored root, a re-parenting under department 4 of c10DB, and a parent
clearing, each with the expected level and path. -/
theorem c7_department_level_path_witness :
    ((Backend.create_department Backend.c7DB Backend.c7CreateRoot).toOption.map
      (fun pr => (pr.2.level, pr.2.path)) = some (1, "行政")) ∧
    ((Backend.create_department Backend.c7DB Backend.c7Create).toOption.map
      (fun pr => (pr.2.level, pr.2.path)) = some (2, "总部 > 研发")) ∧
    ((Backend.update_department Backend.c10DB 2 Backend.c10Update).toOption.map
      (fun o => o.map (fun pr => (pr.2.level, pr.2.path))) = some (some (2, "D > B"))) ∧
    ((Backend.update_department Backend.c10DB 2 Backend.c10ClearParent).toOption.map
      (fun o => o.map (fun pr => (pr.2.level, pr.2.path))) = some (some (1, "B"))) := by
  obtain ⟨db1, row1, h1⟩ : ∃ a b, Backend.create_department Backend.c7DB
      Backend.c7CreateRoot = .ok (a, b) := ⟨_, _, rfl⟩
  obtain ⟨db2, row2, h2⟩ : ∃ a b, Backend.create_department Backend.c7DB
      Backend.c7Create = .ok (a, b) := ⟨_, _, rfl⟩
  obtain ⟨db3, row3, h3⟩ : ∃ a b, Backend.update_department Backend.c10DB 2
      Backend.c10Update = .ok (some (a, b)) := ⟨_, _, rfl⟩
  obtain ⟨db4, row4, h4⟩ : ∃ a b, Backend.update_department Backend.c10DB 2
      Backend.c10ClearParent = .ok (some (a, b)) := ⟨_, _, rfl⟩
  have k1 := (c7_department_level_path Backend.c7DB).1 Backend.c7CreateRoot db1 row1 rfl h1
  have k2 := (c7_department_level_path Backend.c7DB).2.1 Backend.c7Create 1
    (Backend.mkDeptRow 1 "总部" "HQ" none 1 "总部" true) db2 row2 rfl (by decide) rfl h2
  have k3 := (c7_department_level_path Backend.c10DB).2.2.1 2 Backend.c10Update 4
    (Backend.mkDeptRow 4 "D" "CD" none 1 "D" true)
    (Backend.mkDeptRow 2 "B" "CB" (some 1) 2 "A > B" true) db3 row3 rfl rfl (by decide)
    rfl h3
  have k4 := (c7_department_level_path Backend.c10DB).2.2.2 2 Backend.c10ClearParent
    (Backend.mkDeptRow 2 "B" "CB" (some 1) 2 "A > B" true) db4 row4 rfl rfl h4
  refine ⟨?_, ?_, ?_, ?_⟩
  · rw [h1]
    show some (row1.level, row1.path) = _
    rw [k1.1, k1.2]
    rfl
  · rw [h2]
    show some (row2.level, row2.path) = _
    rw [k2.1, k2.2]
    rfl
  · rw [h3]
    show some (some (row3.level, row3.path)) = _
    rw [k3.1, k3.2]
    rfl
  · rw [h4]
    show some (some (row4.level, row4.path)) = _
    rw [k4.1, k4.2]
    rfl

/-- C9: create_department with a nonzero parent_id that matches no stored
department does not reject - it persists the row with level 1, path equal
to its own name, and the dangling parent_id stored as supplied - whereas
update_department rejects the same dangling parent id with the ValueError
that the router maps to 400. -/
theorem c9_create_dangling_parent (db : Backend.DB) (d : Backend.DepartmentCreate)
    (p : Nat) (hpar : d.parent_id = some p) (hp0 : p ≠ 0)
    (hmiss : Backend.get_department db p = none)
    (hcode : Backend.get_department_by_code db d.code = none) :
    (∃ db' row, Backend.create_department db d = .ok (db', row) ∧
      row.level = 1 ∧ row.path = d.name ∧ row.parent_id = some p ∧
      db'.departments = db.departments ++ [row]) ∧
    (∀ (dept_id : Nat) (u : Backend.DepartmentUpdate) (dept : Backend.DepartmentRow),
      Backend.get_department db dept_id = some dept →
      u.parent_id = some (some p) →
      Backend.update_department db dept_id u = .error "父部门不存在") := by
  have htr : Backend.truthyOptNat (some p) = true := by
    simp [Backend.truthyOptNat, hp0]
  constructor
  · obtain ⟨db', row, h⟩ : ∃ a b, Backend.create_department db d = .ok (a, b) := by
      unfold Backend.create_department
      rw [hcode]
      exact ⟨_, _, rfl⟩
    refine ⟨db', row, h, ?_⟩
    unfold Backend.create_department at h
    rw [hcode] at h
    simp only [Option.isSome_none, Bool.false_eq_true, if_false] at h
    rw [hpar, if_pos htr] at h
    simp only [Option.getD_some] at h
    rw [hmiss] at h
    simp at h
    obtain ⟨hdb, hrow⟩ := h
    subst hdb
    subst hrow
    exact ⟨rfl, rfl, rfl, rfl⟩
  · intro dept_id u dept hdept hu
    unfold Backend.update_department Backend.deptUpdateLevelPath
    rw [hdept, hu]
    simp [htr, hmiss]

/-- Witness of the C9 theorem: creating under the missing parent id 77 on
the empty store succeeds with root level and path, while re-parenting the
stored department 1 of c7DB under 77 raises the ValueError. -/
theorem c9_create_dangling_parent_witness :
    ((Backend.create_department Backend.emptyDB Backend.c9Create).toOption.map
      (fun pr => (pr.2.level, pr.2.path, pr.2.parent_id)) =
        some (1, "孤儿", some 77)) ∧
    Backend.update_department Backend.c7DB 1 Backend.c9Update =
      .error "父部门不存在" := by
  have h1 := (c9_create_dangling_parent Backend.emptyDB Backend.c9Create 77 rfl
    (by decide) rfl rfl).1
  have h2 := (c9_create_dangling_parent Backend.c7DB Backend.c9Create 77 rfl
    (by decide) rfl rfl).2 1 Backend.c9Update
    (Backend.mkDeptRow 1 "总部" "HQ" none 1 "总部" true) rfl rfl
  obtain ⟨db', row, hok, hl, hp, hpid, _⟩ := h1
  refine ⟨?_, h2⟩
  rw [hok]
  show some (row.level, row.path, row.parent_id) = _
  rw [hl, hp, hpid]
  rfl

/-- Shape of a successful update_department result: the store is the old
one with exactly the targeted row replaced, and the returned row keeps the
target id. -/
theorem update_department_shape (db : Backend.DB) (dept_id : Nat)
    (u : Backend.DepartmentUpdate) (db' : Backend.DB) (row : Backend.DepartmentRow)
    (h : Backend.update_department db dept_id u = .ok (some (db', row))) :
    db' = { db with departments :=
      db.departments.map (fun r => if r.id == dept_id then row else r) } ∧
    row.id = dept_id := by
  rcases hget : Backend.get_department db dept_id with _ | dept
  · unfold Backend.update_department at h
    rw [hget] at h
    simp at h
  · have hcont : Backend.update_department db dept_id u =
        (match Backend.deptUpdateLevelPath db dept u with
          | .error e => .error e
          | .ok lp =>
            let r0 := Backend.applyDeptUpdate dept u lp
            let rows0 := db.departments.map (fun r => if r.id == dept_id then r0 else r)
            .ok (some ({ db with departments := rows0 }, r0))) := by
      unfold Backend.update_department
      rw [hget]
    rw [hcont] at h
    have hid : dept.id = dept_id := by
      have h' : db.departments.find? (fun r => r.id == dept_id) = some dept := hget
      have := List.find?_some h'
      simpa using this
    rcases hE : Backend.deptUpdateLevelPath db dept u with e | lp
    · rw [hE] at h
      exact Except.noConfusion h
    · rw [hE] at h
      simp at h
      obtain ⟨hdb, hrow⟩ := h
      subst hrow
      constructor
      · rw [← hdb]
        simp
      · simpa [Backend.applyDeptUpdate] using hid

/-- C10: a successful update_department call writes only the targeted row:
the user and employee tables are untouched, the department list keeps its
length, and every department row other than the target is carried over
unchanged in both directions - in particular the descendants of a
re-parented department keep their previously stored level and path. -/
theorem c10_update_frame (db : Backend.DB) (dept_id : Nat)
    (u : Backend.DepartmentUpdate) (db' : Backend.DB) (row : Backend.DepartmentRow)
    (h : Backend.update_department db dept_id u = .ok (some (db', row))) :
    db'.users = db.users ∧ db'.employees = db.employees ∧
    db'.departments.length = db.departments.length ∧
    (∀ r ∈ db.departments, r.id ≠ dept_id → r ∈ db'.departments) ∧
    (∀ r ∈ db'.departments, r.id ≠ dept_id → r ∈ db.departments) := by
  obtain ⟨hdb, hrowid⟩ := update_department_shape db dept_id u db' row h
  subst hdb
  refine ⟨rfl, rfl, by simp, ?_, ?_⟩
  · intro r hr hne
    refine List.mem_map.mpr ⟨r, hr, ?_⟩
    have hb : (r.id == dept_id) = false := by simp [hne]
    simp [hb]
  · intro r' hr' hne
    obtain ⟨r, hr, heq⟩ := List.mem_map.mp hr'
    by_cases hb : (r.id == dept_id) = true
    · rw [if_pos hb] at heq
      subst heq
      exact absurd hrowid hne
    · rw [if_neg (by simpa using hb)] at heq
      subst heq
      exact hr

/-- Witness of the C10 theorem: re-parenting department 2 of c10DB under
department 4 leaves the grandchild row C in place with its old level 3 and
path A > B > C. -/
theorem c10_update_frame_witness :
    Backend.c10DBAfter.users = Backend.c10DB.users ∧
    Backend.c10DBAfter.departments.length = Backend.c10DB.departments.length ∧
    Backend.mkDeptRow 3 "C" "CC" (some 2) 3 "A > B > C" true ∈
      Backend.c10DBAfter.departments := by
  have h := c10_update_frame Backend.c10DB 2 Backend.c10Update Backend.c10DBAfter
    Backend.c10Row rfl
  exact ⟨h.1, h.2.2.1, h.2.2.2.1 (Backend.mkDeptRow 3 "C" "CC" (some 2) 3 "A > B > C" true)
    (by decide) (by decide)⟩

/-- C8: creating a user whose username or email is already stored, creating
a department whose code is already stored, and creating an employee whose
employee number is already stored each answer 400 at the corresponding
endpoint with the store unchanged, so no new row is persisted. -/
theorem c8_uniqueness_enforcement (db : Backend.DB) :
    (∀ u : Backend.UserCreate,
      (∃ r ∈ db.users, r.username = u.username ∨ r.email = u.email) →
      Backend.register_endpoint db u = (db, 400)) ∧
    (∀ d : Backend.DepartmentCreate,
      (∃ r ∈ db.departments, r.code = d.code) →
      Backend.create_department_endpoint db d = (db, 400)) ∧
    (∀ e : Backend.EmployeeCreate,
      (∃ r ∈ db.employees, r.employee_no = e.employee_no) →
      Backend.create_employee_endpoint db e = (db, 400)) := by
  refine ⟨?_, ?_, ?_⟩
  · intro u hu
    unfold Backend.register_endpoint Backend.create_user
    by_cases hpw : u.password ≠ u.confirm_password
    · rw [if_pos hpw]
    · rw [if_neg hpw]
      obtain ⟨r, hr, hcase⟩ := hu
      rcases hcase with hname | hmail
      · have hdup : (Backend.get_user_by_username db u.username).isSome := by
          unfold Backend.get_user_by_username
          exact List.find?_isSome.mpr ⟨r, hr, by simp [hname]⟩
        rw [if_pos hdup]
      · by_cases hdup : (Backend.get_user_by_username db u.username).isSome
        · rw [if_pos hdup]
        · rw [if_neg hdup]
          have hdup2 : (Backend.get_user_by_email db u.email).isSome := by
            unfold Backend.get_user_by_email
            exact List.find?_isSome.mpr ⟨r, hr, by simp [hmail]⟩
          rw [if_pos hdup2]
  · intro d hd
    obtain ⟨r, hr, hcode⟩ := hd
    have hdup : (Backend.get_department_by_code db d.code).isSome := by
      unfold Backend.get_department_by_code
      exact List.find?_isSome.mpr ⟨r, hr, by simp [hcode]⟩
    unfold Backend.create_department_endpoint Backend.create_department
    rw [if_pos hdup]
  · intro e he
    obtain ⟨r, hr, hno⟩ := he
    have hdup : (Backend.get_employee_by_no db e.employee_no).isSome := by
      unfold Backend.get_employee_by_no
      exact List.find?_isSome.mpr ⟨r, hr, by simp [hno]⟩
    unfold Backend.create_employee_endpoint Backend.create_employee
    rw [if_pos hdup]

/-- Witness of the C8 theorem: a registration reusing the stored username
alice, a department creation reusing the stored code HQ, and an employee
creation reusing the stored number EMP001 each answer 400 and leave the
store unchanged. -/
theorem c8_uniqueness_enforcement_witness :
    Backend.register_endpoint Backend.c3DB Backend.c8UserInput = (Backend.c3DB, 400) ∧
    Backend.create_department_endpoint Backend.c8DB Backend.c8DeptInput =
      (Backend.c8DB, 400) ∧
    Backend.create_employee_endpoint Backend.c8DB Backend.c8EmpInput =
      (Backend.c8DB, 400) :=
  ⟨(c8_uniqueness_enforcement Backend.c3DB).1 Backend.c8UserInput
      ⟨Backend.aliceRow, by simp [Backend.c3DB, Backend.emptyDB], Or.inl rfl⟩,
   (c8_uniqueness_enforcement Backend.c8DB).2.1 Backend.c8DeptInput
      ⟨Backend.mkDeptRow 1 "总部" "HQ" none 1 "总部" true,
        by simp [Backend.c8DB, Backend.c3DB, Backend.emptyDB], rfl⟩,
   (c8_uniqueness_enforcement Backend.c8DB).2.2 Backend.c8EmpInput
      ⟨Backend.c8EmpRow, by simp [Backend.c8DB, Backend.c3DB, Backend.emptyDB], rfl⟩⟩
